import Mathlib

/-!
Shallow embedding of the retail-shelf video analysis pipeline
(`app/analyze.py` and `google_vision.py`) and proofs about it.

External effects (the Azure OpenAI vision / summary / evaluation calls,
image encoding, the product-name extractor living outside this slice) are
modelled as oracle parameters; the control flow, string handling and
arithmetic of the repository's own code are translated directly.
Python floats are modelled as exact rationals, Python `int()` as
truncation toward zero, and Python string primitives (`lower`, `strip`,
`split`, `endswith`, `in`) as structurally recursive functions on the
character list of a string.
-/

namespace Planogram

/-- Substring test on character lists: does the second list contain
`needle` as a contiguous run?  Models Python's `needle in hay`. -/
def listContains (needle : List Char) : List Char → Bool
  | [] => needle.isEmpty
  | c :: cs => needle.isPrefixOf (c :: cs) || listContains needle cs

/-- Python `needle in hay` on strings. -/
def strContains (hay needle : String) : Bool :=
  listContains needle.toList hay.toList

/-- Python `str.lower()` (ASCII range, which covers every keyword the
code compares against). -/
def pyLower (s : String) : String :=
  ⟨s.data.map Char.toLower⟩

/-- Python `str.strip()`: drop whitespace from both ends. -/
def pyStrip (s : String) : String :=
  ⟨((s.data.dropWhile Char.isWhitespace).reverse.dropWhile
      Char.isWhitespace).reverse⟩

/-- Helper for `pySplit`: accumulate the current word (reversed) while
scanning the character list. -/
def pySplitAux : List Char → List Char → List String
  | [], cur => if cur.isEmpty then [] else [⟨cur.reverse⟩]
  | c :: cs, cur =>
    if c.isWhitespace then
      (if cur.isEmpty then [] else [⟨cur.reverse⟩]) ++ pySplitAux cs []
    else pySplitAux cs (c :: cur)

/-- Python `str.split()` with no argument: split on whitespace runs,
dropping empty pieces. -/
def pySplit (s : String) : List String :=
  pySplitAux s.data []

/-- Python `str.endswith(suffix)`. -/
def pyEndsWith (s suffix : String) : Bool :=
  suffix.data.isSuffixOf s.data

/-- Python truthiness of an optional string (`None` and `""` are falsy). -/
def pyTruthy : Option String → Bool
  | none => false
  | some s => !s.isEmpty

/-- Python `int()` applied to a real value: truncation toward zero. -/
def pyTrunc (q : ℚ) : Int :=
  if 0 ≤ q then Int.floor q else Int.ceil q

/-- Azure OpenAI configuration read from the environment at module load
(`analyze.py` lines 12-15); an unset variable is `none`. -/
structure Credentials where
  endpoint : Option String
  deployment_name : Option String
  api_version : Option String
  api_key : Option String

/-- The check `all([AZURE_OPENAI_ENDPOINT, AZURE_OPENAI_DEPLOYMENT_NAME,
AZURE_OPENAI_API_VERSION, AZURE_OPENAI_API_KEY])` of `analyze.py`
lines 40-41. -/
def credsOk (c : Credentials) : Bool :=
  pyTruthy c.endpoint && pyTruthy c.deployment_name &&
    pyTruthy c.api_version && pyTruthy c.api_key

/-- Outcome of `encode_image` on a frame image: the base64 payload, or the
exception (type name and message) it raised. -/
inductive EncodeResult where
  | ok (b64 : String)
  | err (etype msg : String)

/-- Outcome of the vision-model chat-completion call: the response text,
or the exception (type name and message) it raised. -/
inductive ApiResult where
  | ok (text : String)
  | err (etype msg : String)

/-- Python f-string interpolation of `frame_number : Optional[int]`. -/
def frameNumberStr : Option Nat → String
  | none => "None"
  | some n => toString n

/-- The `except` handler of `extract_products_from_image`
(`analyze.py` lines 93-106): classify the error message and return a
skip-marker string instead of raising. -/
def classifyVisionError (frame_number : Option Nat) (etype msg : String) :
    String :=
  let error_message := pyLower msg
  if strContains error_message "timeout" then
    "[Skipped frame " ++ frameNumberStr frame_number ++
      " due to timeout. Try again later.]"
  else if (["connection", "network", "connect"].any fun w =>
      strContains error_message w) then
    "[Skipped frame " ++ frameNumberStr frame_number ++
      " due to connection error. Check your internet connection.]"
  else
    "[Skipped frame " ++ frameNumberStr frame_number ++
      " due to error: " ++ etype ++ "]"

/-- The timestamp recomputed inside `extract_products_from_image`
(`analyze.py` lines 32-35): set only when `frame_number is not None`
and `fps` is truthy (nonzero). -/
def visionTimestampMs (frame_number : Option Nat) (fps : ℚ) : Option Int :=
  match frame_number with
  | none => none
  | some n => if fps ≠ 0 then some (pyTrunc ((n : ℚ) / fps * 1000)) else none

/-- `extract_products_from_image` (`analyze.py` lines 28-106).  The whole
body runs inside `try/except Exception`: an encoding failure is classified
by the handler; otherwise the image is encoded, the timestamp context is
derived, the credentials are checked, and only then is the vision call
issued, whose own failure is again classified.  The function never
raises. -/
def extract_products_from_image (creds : Credentials)
    (encodeRes : EncodeResult) (frame_number : Option Nat) (fps : ℚ)
    (apiRes : ApiResult) : String :=
  match encodeRes with
  | .err etype msg => classifyVisionError frame_number etype msg
  | .ok _b64 =>
    let _timestamp_ms := visionTimestampMs frame_number fps
    if !credsOk creds then
      "Error: Azure OpenAI API credentials are missing. Please check your .env file."
    else
      match apiRes with
      | .ok text => pyStrip text
      | .err etype msg => classifyVisionError frame_number etype msg

/-- Presence keywords of `analyze.py` lines 144-146. -/
def presenceKeywords : List String :=
  ["located", "visible", "is on", "can be seen", "placed", "sitting",
   "present", "seen"]

/-- Uncertainty keywords of `analyze.py` lines 147-148. -/
def uncertaintyKeywords : List String :=
  ["not visible", "not found", "unclear", "could be", "might be", "probably"]

/-- Inputs of one `analyze_video_for_query` run: its arguments, what
`cv2.VideoCapture` reports for the source, and oracles for every external
effect (per-frame image encoding, per-frame vision call, summary call,
evaluation call, product-name extractor, and the extra image-path call). -/
structure AnalyzeConfig where
  video_path : String
  user_question : String
  frame_interval : Nat
  creds : Credentials
  opened : Bool
  fps : ℚ
  total_frames : Nat
  readableFrames : Nat
  encodeOracle : Nat → EncodeResult
  apiOracle : Nat → ApiResult
  summaryOracle : String → String
  evalOracle : String → String → String → String
  extractNameOracle : String → Option String
  imageEncode : EncodeResult
  imageApi : ApiResult

/-- Number of frames the `while cap.isOpened()` / `cap.read()` loop
actually reads: none when the source could not be opened, otherwise all
readable frames until `ret` is false. -/
def effectiveFrames (cfg : AnalyzeConfig) : Nat :=
  if cfg.opened then cfg.readableFrames else 0

/-- `video_duration_ms = (total_frames / fps) * 1000` (`analyze.py`
line 151). -/
def durationMs (cfg : AnalyzeConfig) : ℚ :=
  ((cfg.total_frames : ℚ) / cfg.fps) * 1000

/-- `timestamp_ms = int((frame_index / fps) * 1000)` (`analyze.py`
line 127). -/
def frameTs (cfg : AnalyzeConfig) (i : Nat) : Int :=
  pyTrunc ((i : ℚ) / cfg.fps * 1000)

/-- The per-frame vision-call result for sampled frame `i`
(`analyze.py` lines 129-134). -/
def frameResponseOf (cfg : AnalyzeConfig) (i : Nat) : String :=
  extract_products_from_image cfg.creds (cfg.encodeOracle i) (some i)
    cfg.fps (cfg.apiOracle i)

/-- Mutable state of the sampling loop.  `liveFiles` tracks the temporary
image files created and not yet removed (named by frame index, as each
`NamedTemporaryFile` is fresh); `sampled` records the frame indices
actually submitted to the vision call. -/
structure LoopState where
  frame_responses : List String
  product_timestamps : List Int
  liveFiles : List Nat
  sampled : List Nat
deriving DecidableEq

/-- Loop state at entry (`analyze.py` lines 113-115). -/
def initLoopState : LoopState := ⟨[], [], [], []⟩

/-- One iteration of the sampling loop at `frame_index = i`
(`analyze.py` lines 122-158): on a sampled index, write the frame to a
fresh temporary file, compute the timestamp, run the vision call, append
the response entry, classify it with the keyword heuristics and the
trailing-10% window, and finally remove the temporary file. -/
def processFrame (cfg : AnalyzeConfig) (st : LoopState) (i : Nat) :
    LoopState :=
  if i % cfg.frame_interval == 0 then
    let liveFiles := st.liveFiles ++ [i]
    let timestamp_ms := frameTs cfg i
    let response := frameResponseOf cfg i
    let frame_responses := st.frame_responses ++
      ["🖼 Frame " ++ toString i ++ " (" ++ toString timestamp_ms ++
        " ms):\n" ++ response]
    let response_clean := pyLower response
    let keywords_present :=
      presenceKeywords.any fun keyword => strContains response_clean keyword
    let uncertain_phrases :=
      uncertaintyKeywords.any fun phrase => strContains response_clean phrase
    let video_duration_ms := durationMs cfg
    let end_threshold_ms := video_duration_ms * (9 / 10)
    let product_timestamps :=
      if keywords_present && !uncertain_phrases then
        if decide ((timestamp_ms : ℚ) < end_threshold_ms) ||
            !strContains response_clean "end" then
          st.product_timestamps ++ [timestamp_ms]
        else st.product_timestamps
      else st.product_timestamps
    let liveFiles := liveFiles.erase i
    { frame_responses, product_timestamps, liveFiles,
      sampled := st.sampled ++ [i] }
  else st

/-- State of the sampling loop after the first `k` frames have been read. -/
def runLoopN (cfg : AnalyzeConfig) (k : Nat) : LoopState :=
  (List.range k).foldl (processFrame cfg) initLoopState

/-- Final state of the sampling loop (`analyze.py` lines 117-162). -/
def runLoop (cfg : AnalyzeConfig) : LoopState :=
  runLoopN cfg (effectiveFrames cfg)

/-- `combined_text = "\n\n".join(frame_responses)` (`analyze.py`
line 164). -/
def evidenceDoc (cfg : AnalyzeConfig) : String :=
  String.intercalate "\n\n" (runLoop cfg).frame_responses

/-- The stripped summary-call response (`analyze.py` lines 182-194). -/
def baseSummaryOf (cfg : AnalyzeConfig) : String :=
  pyStrip (cfg.summaryOracle (evidenceDoc cfg))

/-- Dictionary returned by `analyze_video_for_query`. -/
structure AnalyzeResult where
  final_summary : String
  timestamps : List Int
  product_name : Option String
deriving DecidableEq

/-- The condition `not product_name or product_name.lower() == "unknown"`
(`analyze.py` lines 205 and 217). -/
def productNameFallback (pn : Option String) : Bool :=
  !pyTruthy pn ||
    (match pn with
     | some s => pyLower s == "unknown"
     | none => false)

/-- Tail of the image-path branch (`analyze.py` lines 199-212): an extra
vision call on the image path whose result is bound but never used, the
evaluation call, product-name extraction with question fallback, and the
returned dictionary. -/
def imageBranchResult (cfg : AnalyzeConfig) (base_summary : String)
    (product_timestamps : List Int) (combined_text : String) :
    AnalyzeResult :=
  let _response :=
    extract_products_from_image cfg.creds cfg.imageEncode none 0 cfg.imageApi
  let _evaluation_result :=
    cfg.evalOracle cfg.user_question base_summary combined_text
  let product_name := cfg.extractNameOracle base_summary
  let product_name :=
    if productNameFallback product_name then
      cfg.extractNameOracle cfg.user_question
    else product_name
  { final_summary := base_summary, timestamps := product_timestamps,
    product_name }

/-- Tail of the default branch (`analyze.py` lines 213-224): identical to
the image branch except for the extra vision call. -/
def defaultBranchResult (cfg : AnalyzeConfig) (base_summary : String)
    (product_timestamps : List Int) (combined_text : String) :
    AnalyzeResult :=
  let _evaluation_result :=
    cfg.evalOracle cfg.user_question base_summary combined_text
  let product_name := cfg.extractNameOracle base_summary
  let product_name :=
    if productNameFallback product_name then
      cfg.extractNameOracle cfg.user_question
    else product_name
  { final_summary := base_summary, timestamps := product_timestamps,
    product_name }

/-- `video_path.lower().endswith((".jpg", ".jpeg", ".png"))`
(`analyze.py` line 199). -/
def isImagePath (p : String) : Bool :=
  pyEndsWith (pyLower p) ".jpg" || pyEndsWith (pyLower p) ".jpeg" ||
    pyEndsWith (pyLower p) ".png"

/-- `analyze_video_for_query` (`analyze.py` lines 108-224): run the
sampling loop, join the evidence document, obtain the summary, force the
timestamp list empty when no positive evidence was kept or the summary
says "not visible", then return through the image or default branch. -/
def analyze_video_for_query (cfg : AnalyzeConfig) : AnalyzeResult :=
  let st := runLoop cfg
  let combined_text := String.intercalate "\n\n" st.frame_responses
  let base_summary := pyStrip (cfg.summaryOracle combined_text)
  let product_timestamps :=
    if st.product_timestamps.isEmpty ||
        strContains (pyLower base_summary) "not visible" then
      ([] : List Int)
    else st.product_timestamps
  if isImagePath cfg.video_path then
    imageBranchResult cfg base_summary product_timestamps combined_text
  else
    defaultBranchResult cfg base_summary product_timestamps combined_text

/-- `ProductDetection` dataclass of `google_vision.py` (the fields used by
`find_similar_products`; `attributes` and `bounding_box` play no role
there). -/
structure ProductDetection where
  name : String
  brand : String
  category : String
  confidence : ℚ
  description : String
deriving DecidableEq

/-- Similarity score computed in the body of `find_similar_products`
(`google_vision.py` lines 287-304): 0.4 for a brand substring match,
0.3 for a category substring match, and 0.3 scaled by the fraction of
search words also occurring among the (distinct) name words. -/
def similarityScore (search_lower : String) (product : ProductDetection) :
    ℚ :=
  let s1 : ℚ :=
    if strContains search_lower (pyLower product.brand) then 2 / 5 else 0
  let s2 : ℚ :=
    if strContains search_lower (pyLower product.category) then s1 + 3 / 10
    else s1
  let name_words := pySplit (pyLower product.name)
  let search_words := pySplit search_lower
  let common_words := name_words.eraseDups.filter fun w =>
    search_words.contains w
  if common_words.length ≠ 0 then
    s2 + 3 / 10 * ((common_words.length : ℚ) / (search_words.length : ℚ))
  else s2

/-- `GoogleVisionProductDetector.find_similar_products`
(`google_vision.py` lines 280-313): keep products scoring strictly above
0.5, overwrite their `confidence` with the score, and sort by
`confidence` descending (Python's stable sort with `reverse=True`). -/
def find_similar_products (detected_products : List ProductDetection)
    (search_query : String) : List ProductDetection :=
  let search_lower := pyLower search_query
  let similar_products := detected_products.filterMap fun product =>
    let similarity_score := similarityScore search_lower product
    if similarity_score > 1 / 2 then
      some { product with confidence := similarity_score }
    else none
  similar_products.mergeSort fun a b => b.confidence ≤ a.confidence

/-- Response entry appended to `frame_responses` for sampled frame `i`
(`analyze.py` line 136). -/
def frameEntryOf (cfg : AnalyzeConfig) (i : Nat) : String :=
  "🖼 Frame " ++ toString i ++ " (" ++ toString (frameTs cfg i) ++
    " ms):\n" ++ frameResponseOf cfg i

/-- Combined classification condition of `analyze.py` lines 144-155 for
sampled frame `i`: some presence keyword, no uncertainty keyword, and the
timestamp precedes the 90%-of-duration threshold or the text lacks
"end". -/
def framePositive (cfg : AnalyzeConfig) (i : Nat) : Bool :=
  let response_clean := pyLower (frameResponseOf cfg i)
  ((presenceKeywords.any fun keyword => strContains response_clean keyword) &&
    !(uncertaintyKeywords.any fun phrase =>
      strContains response_clean phrase)) &&
  (decide ((frameTs cfg i : ℚ) < durationMs cfg * (9 / 10)) ||
    !strContains response_clean "end")

/-- Frame indices submitted to the vision call among the first `k`
frames. -/
def sampledUpTo (cfg : AnalyzeConfig) (k : Nat) : List Nat :=
  (List.range k).filter fun i => i % cfg.frame_interval == 0

/-- Fully populated Azure credentials, for instantiating theorems. -/
def fullCreds : Credentials :=
  ⟨some "https://endpoint", some "gpt-4o", some "2024-02-01", some "key123"⟩

/-- Credentials with the endpoint unset. -/
def missingCreds : Credentials :=
  ⟨none, some "gpt-4o", some "2024-02-01", some "key123"⟩

/-- A concrete pipeline configuration: a one-readable-frame ten-frame
video at 1 fps, sampled every frame, whose single vision call reports the
product as located on the shelf. -/
def baseCfg : AnalyzeConfig where
  video_path := "shelf_video.mp4"
  user_question := "Where is the detergent?"
  frame_interval := 1
  creds := fullCreds
  opened := true
  fps := 1
  total_frames := 10
  readableFrames := 1
  encodeOracle := fun _ => .ok "imagedata"
  apiOracle := fun _ => .ok "The product is located on the shelf"
  summaryOracle := fun _ => "The product is on the shelf."
  evalOracle := fun _ _ _ => "Accuracy Score: 100%"
  extractNameOracle := fun _ => some "Detergent"
  imageEncode := .ok "imagedata"
  imageApi := .ok "resp"

/-- Configuration whose vision call answers with an uncertainty phrase
that also contains a presence keyword. -/
def c1cfg : AnalyzeConfig :=
  { baseCfg with
    apiOracle := fun _ => .ok "The product might be located on the top shelf" }

/-- Configuration whose summary call reports the product as not visible
although the loop collected positive evidence. -/
def c2cfg : AnalyzeConfig :=
  { baseCfg with
    summaryOracle := fun _ =>
      "Sorry, the product is not visible in this video." }

/-- Configuration with a 30 fps source. -/
def c4cfg : AnalyzeConfig := { baseCfg with fps := 30 }

/-- Configuration whose video source cannot be opened. -/
def c7cfg : AnalyzeConfig := { baseCfg with opened := false }

/-- A detected product used to instantiate the search theorems. -/
def tideProduct : ProductDetection :=
  ⟨"Tide Detergent", "Tide", "Detergent", 0, "Detected Tide brand product"⟩

lemma ite_ite_append (a b : Bool) (l : List Int) (t : Int) :
    (if a then (if b then l ++ [t] else l) else l) =
      l ++ (if a && b then [t] else []) := by
  cases a <;> cases b <;> simp

lemma processFrame_sampled (cfg : AnalyzeConfig) (st : LoopState) (i : Nat)
    (h : (i % cfg.frame_interval == 0) = true) :
    processFrame cfg st i =
      { frame_responses := st.frame_responses ++ [frameEntryOf cfg i],
        product_timestamps := st.product_timestamps ++
          (if framePositive cfg i then [frameTs cfg i] else []),
        liveFiles := (st.liveFiles ++ [i]).erase i,
        sampled := st.sampled ++ [i] } := by
  simp only [processFrame, h, if_true, frameEntryOf, framePositive]
  rw [ite_ite_append]

lemma processFrame_skipped (cfg : AnalyzeConfig) (st : LoopState) (i : Nat)
    (h : (i % cfg.frame_interval == 0) = false) :
    processFrame cfg st i = st := by
  simp [processFrame, h]

lemma runLoopN_succ (cfg : AnalyzeConfig) (k : Nat) :
    runLoopN cfg (k + 1) = processFrame cfg (runLoopN cfg k) k := by
  unfold runLoopN
  rw [List.range_succ, List.foldl_append]
  rfl

lemma sampledUpTo_succ (cfg : AnalyzeConfig) (k : Nat) :
    sampledUpTo cfg (k + 1) = sampledUpTo cfg k ++
      (if (k % cfg.frame_interval == 0) = true then [k] else []) := by
  unfold sampledUpTo
  rw [List.range_succ, List.filter_append]
  cases h : (k % cfg.frame_interval == 0) <;> simp [List.filter, h]

/-- Closed form of the sampling loop after `k` frames: the responses,
positive timestamps and vision-call log are images of the sampled index
list, and no temporary file survives an iteration. -/
lemma runLoopN_closed (cfg : AnalyzeConfig) (k : Nat) :
    runLoopN cfg k =
      { frame_responses := (sampledUpTo cfg k).map (frameEntryOf cfg),
        product_timestamps :=
          ((sampledUpTo cfg k).filter (framePositive cfg)).map (frameTs cfg),
        liveFiles := [],
        sampled := sampledUpTo cfg k } := by
  induction k with
  | zero => rfl
  | succ k ih =>
    rw [runLoopN_succ, ih, sampledUpTo_succ]
    by_cases h : (k % cfg.frame_interval == 0) = true
    · rw [processFrame_sampled cfg _ k h, if_pos h]
      by_cases hp : framePositive cfg k = true
      · simp [hp]
      · simp [hp]
    · rw [processFrame_skipped cfg _ k (by simpa using h), if_neg h]
      simp

/-- The Bool classification agrees with the spec's three-part condition. -/
lemma framePositive_iff (cfg : AnalyzeConfig) (i : Nat) :
    framePositive cfg i = true ↔
      ((∃ kw ∈ presenceKeywords,
          strContains (pyLower (frameResponseOf cfg i)) kw = true) ∧
       (∀ ph ∈ uncertaintyKeywords,
          strContains (pyLower (frameResponseOf cfg i)) ph = false) ∧
       ((frameTs cfg i : ℚ) < durationMs cfg * (9 / 10) ∨
          strContains (pyLower (frameResponseOf cfg i)) "end" = false)) := by
  simp only [framePositive, Bool.and_eq_true, Bool.or_eq_true,
    Bool.not_eq_true', List.any_eq_true, List.any_eq_false,
    decide_eq_true_eq, and_assoc, Bool.not_eq_true]

/-- C1: at every sampled frame, the timestamp is appended to the
positive-evidence list iff the lower-cased response contains a presence
keyword, contains no uncertainty keyword, and either the timestamp is
strictly below 90% of the video duration in milliseconds or the text
does not contain "end"; otherwise the list is unchanged, so an
uncertainty phrase such as "might be" excludes the frame even when
"located" also occurs. -/
theorem C1_positive_evidence_iff (cfg : AnalyzeConfig) (st : LoopState)
    (i : Nat) (h : i % cfg.frame_interval = 0) :
    (processFrame cfg st i).product_timestamps =
      (if ((∃ kw ∈ ["located", "visible", "is on", "can be seen", "placed",
                    "sitting", "present", "seen"],
              strContains (pyLower (frameResponseOf cfg i)) kw = true) ∧
           (∀ ph ∈ ["not visible", "not found", "unclear", "could be",
                    "might be", "probably"],
              strContains (pyLower (frameResponseOf cfg i)) ph = false) ∧
           ((frameTs cfg i : ℚ) < durationMs cfg * (9 / 10) ∨
              strContains (pyLower (frameResponseOf cfg i)) "end" = false))
       then st.product_timestamps ++ [frameTs cfg i]
       else st.product_timestamps) := by
  rw [processFrame_sampled cfg st i (by simpa using h)]
  show st.product_timestamps ++ _ = _
  by_cases hC : ((∃ kw ∈ ["located", "visible", "is on", "can be seen",
        "placed", "sitting", "present", "seen"],
      strContains (pyLower (frameResponseOf cfg i)) kw = true) ∧
    (∀ ph ∈ ["not visible", "not found", "unclear", "could be",
        "might be", "probably"],
      strContains (pyLower (frameResponseOf cfg i)) ph = false) ∧
    ((frameTs cfg i : ℚ) < durationMs cfg * (9 / 10) ∨
      strContains (pyLower (frameResponseOf cfg i)) "end" = false))
  · rw [if_pos ((framePositive_iff cfg i).mpr hC), if_pos hC]
  · rw [if_neg (fun hh => hC ((framePositive_iff cfg i).mp hh)), if_neg hC,
      List.append_nil]

/-- C1 witness: with the response "The product might be located on the
top shelf", frame 0 is sampled but its timestamp is not appended despite
the presence keyword "located". -/
theorem C1_witness : 0 % c1cfg.frame_interval = 0 ∧
    (processFrame c1cfg initLoopState 0).product_timestamps = [] := by
  refine ⟨rfl, ?_⟩
  rw [C1_positive_evidence_iff c1cfg initLoopState 0 rfl]
  rw [if_neg]
  · rfl
  · rintro ⟨-, hB, -⟩
    exact absurd (hB "might be" (by decide)) (by decide)

/-- C2: if the sampling loop kept no positive timestamps, or the
synthesized summary contains "not visible" (case-insensitively), then the
returned dictionary's timestamp list is empty — even when the loop had
collected a non-empty list. -/
theorem C2_summary_overrides_timestamps (cfg : AnalyzeConfig)
    (h : (runLoop cfg).product_timestamps = [] ∨
      strContains (pyLower (baseSummaryOf cfg)) "not visible" = true) :
    (analyze_video_for_query cfg).timestamps = [] := by
  simp only [baseSummaryOf, evidenceDoc] at h
  have hcond : ((runLoop cfg).product_timestamps.isEmpty ||
      strContains
        (pyLower (pyStrip (cfg.summaryOracle
          (String.intercalate "\n\n" (runLoop cfg).frame_responses))))
        "not visible") = true := by
    rcases h with h | h
    · simp [h]
    · simp [h]
  simp only [analyze_video_for_query, hcond, if_true]
  cases himg : isImagePath cfg.video_path <;>
    simp [himg, imageBranchResult, defaultBranchResult]

/-- C2 witness: the loop keeps timestamp 0, yet the summary "Sorry, the
product is not visible in this video." forces the returned list empty. -/
theorem C2_witness :
    ((runLoop c2cfg).product_timestamps = [0] ∧
      strContains (pyLower (baseSummaryOf c2cfg)) "not visible" = true) ∧
    (analyze_video_for_query c2cfg).timestamps = [] := by
  have hfp : framePositive c2cfg 0 = true :=
    (framePositive_iff c2cfg 0).mpr
      ⟨⟨"located", by decide, by decide⟩, by decide, Or.inr (by decide)⟩
  have hts : frameTs c2cfg 0 = 0 := by
    simp [frameTs, pyTrunc]
  have hsam : sampledUpTo c2cfg (effectiveFrames c2cfg) = [0] := by decide
  have hloop : (runLoop c2cfg).product_timestamps = [0] := by
    rw [runLoop, runLoopN_closed]
    show ((sampledUpTo c2cfg (effectiveFrames c2cfg)).filter
      (framePositive c2cfg)).map (frameTs c2cfg) = [0]
    rw [hsam]
    simp [hfp, hts]
  have hnv : strContains (pyLower (baseSummaryOf c2cfg)) "not visible" =
      true := by decide
  exact ⟨⟨hloop, hnv⟩,
    C2_summary_overrides_timestamps c2cfg (Or.inr hnv)⟩

/-- C3: every frame index submitted to the vision call is an exact
multiple of the sampling interval, the analyzed indices are strictly
increasing with one frame-response entry per sampled frame, and they are
exactly the multiples of the interval among the frames read before the
source was exhausted. -/
theorem C3_sampling_invariant (cfg : AnalyzeConfig) :
    (∀ i ∈ (runLoop cfg).sampled, i % cfg.frame_interval = 0) ∧
    (runLoop cfg).sampled.Pairwise (· < ·) ∧
    (runLoop cfg).sampled =
      (List.range (effectiveFrames cfg)).filter
        (fun i => i % cfg.frame_interval == 0) ∧
    (runLoop cfg).frame_responses.length = (runLoop cfg).sampled.length := by
  rw [runLoop, runLoopN_closed]
  refine ⟨?_, ?_, rfl, by simp⟩
  · intro i hi
    have := (List.mem_filter.mp hi).2
    simpa using this
  · exact List.Pairwise.sublist (List.filter_sublist _)
      (List.pairwise_lt_range _)

/-- C3 witness: frame 0 of the concrete configuration is analyzed and is
a multiple of the interval. -/
theorem C3_witness : 0 ∈ (runLoop baseCfg).sampled ∧
    0 % baseCfg.frame_interval = 0 :=
  ⟨by decide, (C3_sampling_invariant baseCfg).1 0 (by decide)⟩

/-- C4: for positive frame rate, the timestamp recomputed inside the
vision call equals the one computed in the sampling loop, and both equal
the floor of `i / fps * 1000`. -/
theorem C4_timestamp_consistency (cfg : AnalyzeConfig) (i : Nat)
    (h : 0 < cfg.fps) :
    visionTimestampMs (some i) cfg.fps = some (frameTs cfg i) ∧
    frameTs cfg i = Int.floor ((i : ℚ) / cfg.fps * 1000) := by
  constructor
  · simp only [visionTimestampMs, frameTs, if_pos h.ne']
  · rw [frameTs, pyTrunc,
      if_pos (mul_nonneg (div_nonneg (Nat.cast_nonneg i) h.le)
        (by norm_num))]

/-- C4 witness: at 30 fps, frame 1 gets timestamp 33 ms in both places. -/
theorem C4_witness : (0 : ℚ) < c4cfg.fps ∧
    visionTimestampMs (some 1) c4cfg.fps = some (frameTs c4cfg 1) ∧
    frameTs c4cfg 1 = 33 := by
  have hfps : (0 : ℚ) < c4cfg.fps := by norm_num [c4cfg, baseCfg]
  have h := C4_timestamp_consistency c4cfg 1 hfps
  refine ⟨hfps, h.1, ?_⟩
  rw [h.2]
  have : (((1 : Nat) : ℚ) / c4cfg.fps * 1000) = 100 / 3 := by
    norm_num [c4cfg, baseCfg]
  rw [this, Int.floor_eq_iff]
  norm_num

/-- C5: when the vision call for frame `n` fails with a message containing
"timeout" (case-insensitively), `extract_products_from_image` returns
exactly the interpolated skip-marker string instead of raising, and — for
any oracle outcomes whatsoever — the sampling loop still analyzes frame
`n` and continues to frame `n + frame_interval`. -/
theorem C5_timeout_skip (creds : Credentials) (b64 etype msg : String)
    (fps : ℚ) (n : Nat) (hc : credsOk creds = true)
    (hm : strContains (pyLower msg) "timeout" = true) :
    extract_products_from_image creds (.ok b64) (some n) fps
        (.err etype msg) =
      "[Skipped frame " ++ toString n ++
        " due to timeout. Try again later.]" ∧
    ∀ cfg : AnalyzeConfig, n % cfg.frame_interval = 0 →
      n + cfg.frame_interval < effectiveFrames cfg →
      n ∈ (runLoop cfg).sampled ∧
        n + cfg.frame_interval ∈ (runLoop cfg).sampled := by
  constructor
  · simp [extract_products_from_image, hc, classifyVisionError, hm,
      frameNumberStr]
  · intro cfg h1 h2
    rw [runLoop, runLoopN_closed]
    show n ∈ sampledUpTo cfg _ ∧ n + cfg.frame_interval ∈ sampledUpTo cfg _
    rw [sampledUpTo]
    constructor
    · rw [List.mem_filter]
      exact ⟨List.mem_range.mpr (by omega), by simp [h1]⟩
    · rw [List.mem_filter]
      refine ⟨List.mem_range.mpr h2, ?_⟩
      simp [Nat.add_mod_right, h1]

/-- C5 witness: a timeout failure at frame 42 yields exactly the
documented skip-marker text. -/
theorem C5_witness : credsOk fullCreds = true ∧
    strContains (pyLower "The request timeout was reached") "timeout" =
      true ∧
    extract_products_from_image fullCreds (.ok "imagedata") (some 42) 1
        (.err "APITimeoutError" "The request timeout was reached") =
      "[Skipped frame 42 due to timeout. Try again later.]" :=
  ⟨by decide, by decide,
    (C5_timeout_skip fullCreds "imagedata" "APITimeoutError"
      "The request timeout was reached" 1 42 (by decide) (by decide)).1⟩

/-- C6: after any number of sampling-loop iterations — hence between any
two consecutive iterations — no per-frame temporary image file remains
live, whatever the vision-call outcomes (success, timeout, connectivity
failure, or other error) supplied by the oracles. -/
theorem C6_temp_file_cleanup (cfg : AnalyzeConfig) (k : Nat) :
    (runLoopN cfg k).liveFiles = [] := by
  rw [runLoopN_closed]

/-- C7: when the video source cannot be opened, no vision call is made,
the frame-response list is empty, the evidence document is the empty
string, and the returned timestamp list is empty — the run is not an
error. -/
theorem C7_unopened_source (cfg : AnalyzeConfig) (h : cfg.opened = false) :
    (runLoop cfg).sampled = [] ∧
    (runLoop cfg).frame_responses = [] ∧
    evidenceDoc cfg = "" ∧
    (analyze_video_for_query cfg).timestamps = [] := by
  have he : effectiveFrames cfg = 0 := by simp [effectiveFrames, h]
  have hl : runLoop cfg = initLoopState := by
    rw [runLoop, he]
    rfl
  refine ⟨by rw [hl]; rfl, by rw [hl]; rfl, by rw [evidenceDoc, hl]; rfl, ?_⟩
  simp only [analyze_video_for_query, hl, initLoopState]
  cases himg : isImagePath cfg.video_path <;>
    simp [himg, imageBranchResult, defaultBranchResult]

/-- C7 witness: the concrete unopened-source configuration. -/
theorem C7_witness : c7cfg.opened = false ∧
    (runLoop c7cfg).sampled = [] ∧
    (runLoop c7cfg).frame_responses = [] ∧
    evidenceDoc c7cfg = "" ∧
    (analyze_video_for_query c7cfg).timestamps = [] := by
  have h := C7_unopened_source c7cfg rfl
  exact ⟨rfl, h.1, h.2.1, h.2.2.1, h.2.2.2⟩

/-- C8 counterexample: with the endpoint credential unset but the image
file unreadable, the call returns the classified skip-marker — not the
credentials string — because `encode_image` runs before the credentials
check and its failure is caught by the generic handler. -/
theorem C8_counterexample : credsOk missingCreds = false ∧
    extract_products_from_image missingCreds
        (.err "FileNotFoundError" "No such file or directory") (some 7) 1
        (.ok "irrelevant") ≠
      "Error: Azure OpenAI API credentials are missing. Please check your .env file." := by
  decide

/-- C8 amended: whenever any credential is unset and the image-encoding
step succeeds, the call returns exactly the explanatory credentials
string, without raising; and the result does not depend on the vision-API
outcome, i.e. no vision call is issued.  (The check runs after image
encoding and timestamp derivation, not before all per-call processing.) -/
theorem C8_missing_credentials (creds : Credentials) (b64 : String)
    (frame_number : Option Nat) (fps : ℚ) (api api' : ApiResult)
    (h : credsOk creds = false) :
    extract_products_from_image creds (.ok b64) frame_number fps api =
      "Error: Azure OpenAI API credentials are missing. Please check your .env file." ∧
    extract_products_from_image creds (.ok b64) frame_number fps api =
      extract_products_from_image creds (.ok b64) frame_number fps api' := by
  simp [extract_products_from_image, h]

/-- C8 witness: the credentials string is returned for the concrete
unset-endpoint configuration with a successfully encoded image. -/
theorem C8_witness : credsOk missingCreds = false ∧
    extract_products_from_image missingCreds (.ok "imagedata") (some 0) 1
        (.ok "some analysis") =
      "Error: Azure OpenAI API credentials are missing. Please check your .env file." :=
  ⟨by decide,
    (C8_missing_credentials missingCreds "imagedata" (some 0) 1
      (.ok "some analysis") (.err "E" "m") (by decide)).1⟩

/-- C9: the image-suffix branch and the default branch of
`analyze_video_for_query` return identical dictionaries from the same
summary, timestamps and question — for every outcome of the extra vision
call made only in the image branch, whose bound result is never used. -/
theorem C9_branch_equivalence (cfg : AnalyzeConfig) (e : EncodeResult)
    (a : ApiResult) (base_summary : String) (product_timestamps : List Int)
    (combined_text : String) :
    imageBranchResult { cfg with imageEncode := e, imageApi := a }
        base_summary product_timestamps combined_text =
      defaultBranchResult cfg base_summary product_timestamps
        combined_text := rfl

/-- The score assigned to the concrete detected product for the query
"Tide Detergent price": 0.4 (brand) + 0.3 (category) + 0.3 · (2/3). -/
lemma tideScore :
    similarityScore (pyLower "Tide Detergent price") tideProduct =
      9 / 10 := by
  have h1 : strContains (pyLower "Tide Detergent price")
      (pyLower tideProduct.brand) = true := by decide
  have h2 : strContains (pyLower "Tide Detergent price")
      (pyLower tideProduct.category) = true := by decide
  have h3 : ((pySplit (pyLower tideProduct.name)).eraseDups.filter fun w =>
      (pySplit (pyLower "Tide Detergent price")).contains w).length = 2 := by
    decide
  have h4 : (pySplit (pyLower "Tide Detergent price")).length = 3 := by
    decide
  simp only [similarityScore, h1, h2, h3, h4, if_true]
  norm_num

/-- C10: every product returned by `find_similar_products` carries a
confidence equal to its computed similarity score, that score is strictly
greater than 0.5, and the returned list is sorted in non-increasing
confidence order. -/
theorem C10_find_similar_products (detected : List ProductDetection)
    (q : String) :
    (∀ p ∈ find_similar_products detected q,
       p.confidence = similarityScore (pyLower q) p ∧
       (1 / 2 : ℚ) < p.confidence) ∧
    (find_similar_products detected q).Pairwise
      (fun a b => b.confidence ≤ a.confidence) := by
  constructor
  · intro p hp
    rw [find_similar_products, List.mem_mergeSort] at hp
    obtain ⟨x, hx, hfx⟩ := List.mem_filterMap.mp hp
    by_cases hs : similarityScore (pyLower q) x > 1 / 2
    · rw [if_pos hs] at hfx
      cases hfx
      exact ⟨rfl, hs⟩
    · rw [if_neg hs] at hfx
      cases hfx
  · simp only [find_similar_products]
    refine List.Pairwise.imp ?_ (List.sorted_mergeSort ?_ ?_ _)
    · intro a b hab
      exact of_decide_eq_true hab
    · intro a b c hab hbc
      exact decide_eq_true
        (le_trans (of_decide_eq_true hbc) (of_decide_eq_true hab))
    · intro a b
      rcases le_total b.confidence a.confidence with h | h
      · simp [h]
      · simp [h]

/-- C10 witness: the Tide detection is returned with its confidence
overwritten by the score 9/10, which exceeds 1/2. -/
theorem C10_witness :
    ({ tideProduct with confidence := 9 / 10 } ∈
        find_similar_products [tideProduct] "Tide Detergent price") ∧
    ({ tideProduct with confidence := 9 / 10 }).confidence =
      similarityScore (pyLower "Tide Detergent price")
        { tideProduct with confidence := 9 / 10 } ∧
    (1 / 2 : ℚ) <
      ({ tideProduct with confidence := 9 / 10 }).confidence := by
  have hmem : { tideProduct with confidence := 9 / 10 } ∈
      find_similar_products [tideProduct] "Tide Detergent price" := by
    rw [find_similar_products, List.mem_mergeSort]
    refine List.mem_filterMap.mpr ⟨tideProduct, List.mem_singleton.mpr rfl,
      ?_⟩
    rw [tideScore, if_pos (by norm_num)]
  have h := (C10_find_similar_products [tideProduct]
    "Tide Detergent price").1 _ hmem
  exact ⟨hmem, h.1, h.2⟩

end Planogram
